import Mathlib

/-!
Verification of the compliance-dashboard core (src/main.py):
data model, the active-PPM view, the filter compiler (build_where),
the due-status classifier (classify_site_status), and the lifecycle
mutation endpoints (api_update_ppm, api_update_site).

Modelling conventions:
* SQL TEXT date columns hold YYYY-MM-DD strings and SQLite compares them
  lexicographically, so they are kept as `String` with string order;
  `date('now')` (and the '+30 days' / '+90 days' variants computed by the
  store) are explicit parameters `today`, `soonEnd`, `quarterEnd`.
* The classifier parses its string into a `datetime.date`; dates there are
  modelled as `Int` day ordinals (`date.fromisoformat` becomes the identity
  of that encoding, `timedelta(days = k)` becomes `+ k`).
* SQL NULL is `Option.none`; Python falsiness of a filter value is modelled
  by explicit truthiness functions (`truthyStr`, `truthyOptInt`).
* An UPDATE statement is a list of column assignments applied left to right;
  SQLite keeps the rightmost assignment when a column is assigned twice,
  which the left fold reproduces.
* Each mutation endpoint returns the response together with the store, so
  that the error paths provably leave the store untouched.
-/

namespace Compliance

/-- A row of the ppm_plan table, with the lifecycle columns added by
ensure_views_and_columns (src/main.py lines 24-34). -/
structure PpmPlan where
  ppm_plan_id : Int
  site_id : String
  category_id : Option Int
  priority : Option String
  finished_date : Option String
  next_due_date : Option String
  is_active : Bool
  retired_at : Option String
  retired_reason : Option String
  suspended_until : Option String
  deriving DecidableEq, Repr

/-- A row of the site table (the columns the core reads and writes). -/
structure Site where
  site_id : String
  name : String
  uprn : String
  site_code : String
  status : String
  site_type_code : String
  updated_at : Option Int
  deriving DecidableEq, Repr

/-- The relational store as seen by the core. -/
structure DB where
  sites : List Site
  plans : List PpmPlan
  deriving DecidableEq, Repr

/-- Strict lexicographic order on character lists by code point; on
YYYY-MM-DD strings this is SQLite's binary TEXT comparison, which agrees
with date order. -/
def charListLt : List Char → List Char → Bool
  | [], [] => false
  | [], _ :: _ => true
  | _ :: _, [] => false
  | a :: as, b :: bs =>
    if a.toNat < b.toNat then true
    else if b.toNat < a.toNat then false
    else charListLt as bs

/-- SQLite TEXT `<` on two stored strings. -/
def strLt (a b : String) : Bool := charListLt a.data b.data

/-- SQLite TEXT `<=` on two stored strings. -/
def strLe (a b : String) : Bool := a == b || strLt a b

/-- Row predicate of view_active_ppm (src/main.py lines 37-43):
is_active = 1 AND (suspended_until IS NULL OR suspended_until <= date('now')). -/
def inActiveView (today : String) (p : PpmPlan) : Bool :=
  p.is_active &&
    (match p.suspended_until with
     | none => true
     | some u => strLe u today)

/-- view_active_ppm: the active, not-currently-suspended plans. -/
def view_active_ppm (today : String) (db : DB) : List PpmPlan :=
  db.plans.filter (inActiveView today)

/-- The due_window query value (a FastAPI Literal, default "all"). -/
inductive DueWindow where
  | all
  | overdue
  | soon
  | quarter
  deriving DecidableEq, Repr

/-- The string carried by the due_window filter entry. -/
def DueWindow.toStr : DueWindow → String
  | .all => "all"
  | .overdue => "overdue"
  | .soon => "soon"
  | .quarter => "quarter"

/-- The filters dict built by api_sites / api_export_sites_csv
(src/main.py lines 201-208): q, status, site_type, priority arrive
stripped, with "" for an absent value; category_id is an optional int;
due_window is always present. -/
structure Filters where
  q : String
  status : String
  site_type : String
  category_id : Option Int
  priority : String
  due_window : DueWindow
  deriving DecidableEq, Repr

/-- Python truthiness of a string: non-empty. -/
def truthyStr (s : String) : Bool := s ≠ ""

/-- Python truthiness of an optional int: present and non-zero. -/
def truthyOptInt : Option Int → Bool
  | none => false
  | some n => n != 0

/-- Character-list prefix test (used for the LIKE '%q%' substring match). -/
def chPre : List Char → List Char → Bool
  | [], _ => true
  | _ :: _, [] => false
  | a :: as, b :: bs => a == b && chPre as bs

/-- Contiguous-substring test on character lists. -/
def containsSub (needle : List Char) : List Char → Bool
  | [] => needle.isEmpty
  | c :: rest => chPre needle (c :: rest) || containsSub needle rest

/-- LOWER(field) LIKE '%' || LOWER(q) || '%': case-insensitive substring. -/
def likeMatch (q field : String) : Bool :=
  containsSub q.toLower.data field.toLower.data

/-- The due-window condition added inside the EXISTS subquery
(src/main.py lines 138-144); BETWEEN and < are SQL comparisons that are
false on a NULL next_due_date. -/
def dwCond (dw : DueWindow) (today soonEnd quarterEnd : String) (p : PpmPlan) : Bool :=
  match dw with
  | .all => true
  | .overdue =>
    match p.next_due_date with
    | some d => strLt d today
    | none => false
  | .soon =>
    match p.next_due_date with
    | some d => strLe today d && strLe d soonEnd
    | none => false
  | .quarter =>
    match p.next_due_date with
    | some d => strLe today d && strLe d quarterEnd
    | none => false

/-- The plan-level conditions accumulated inside the single EXISTS subquery
(src/main.py lines 131-144): category, priority and due-window, each added
only when its filter value is truthy, conjoined on one row. -/
def planCond (f : Filters) (today soonEnd quarterEnd : String) (p : PpmPlan) : Bool :=
  (if truthyOptInt f.category_id then p.category_id == f.category_id else true) &&
  (if truthyStr f.priority then p.priority == some f.priority else true) &&
  dwCond f.due_window today soonEnd quarterEnd p

/-- Guard of the EXISTS block (src/main.py line 129):
filters.get("category_id") or filters.get("priority") or filters.get("due_window"). -/
def existsGuard (f : Filters) : Bool :=
  truthyOptInt f.category_id || truthyStr f.priority || truthyStr f.due_window.toStr

/-- The site-level conditions of build_where (src/main.py lines 118-127):
status, site_type, and the free-text q over name, site_code and uprn. -/
def baseFilterPred (f : Filters) (s : Site) : Bool :=
  (if truthyStr f.status then s.status == f.status else true) &&
  (if truthyStr f.site_type then s.site_type_code == f.site_type else true) &&
  (if truthyStr f.q then
    likeMatch f.q s.name || likeMatch f.q s.site_code || likeMatch f.q s.uprn
   else true)

/-- The whole WHERE clause produced by build_where (src/main.py lines 111-147)
as a predicate on a site row. -/
def sitePred (f : Filters) (today soonEnd quarterEnd : String) (db : DB) (s : Site) : Bool :=
  baseFilterPred f s &&
  (if existsGuard f then
    (view_active_ppm today db).any
      (fun p => p.site_id == s.site_id && planCond f today soonEnd quarterEnd p)
   else true)

/-- The set of site rows kept by the WHERE clause of api_sites and of the
CSV export (before ORDER BY name / LIMIT are applied). -/
def sitesFiltered (f : Filters) (today soonEnd quarterEnd : String) (db : DB) : List Site :=
  db.sites.filter (sitePred f today soonEnd quarterEnd db)

/-- classify_site_status (src/main.py lines 92-109).  min_next_due is the
parsed earliest due date (a falsy value — None or "" — is `none`);
dates are day ordinals, so today + timedelta(days = 30) is today + 30. -/
def classify_site_status (min_next_due : Option Int) (has_overdue : Bool)
    (today : Int) : String :=
  if has_overdue then "DUE"
  else
    match min_next_due with
    | none => "OK"
    | some nd =>
      if nd < today then "DUE"
      else if nd ≤ today + 30 then "DUE_SOON"
      else "OK"

/-- The raw PATCH /api/ppm body before pydantic validation: each field is
absent (`none`) or a JSON string / boolean. -/
structure RawPpmUpdate where
  finished_date : Option String := none
  next_due_date : Option String := none
  is_active : Option Bool := none
  retired_reason : Option String := none
  retired_at : Option String := none
  suspended_until : Option String := none
  deriving DecidableEq, Repr

/-- The shape accepted by the date_like validator (src/main.py line 84):
exactly 10 characters with a dash at positions 4 and 7. -/
def isDateShape (s : String) : Bool :=
  s.length == 10 && s.data.get? 4 == some '-' && s.data.get? 7 == some '-'

/-- PpmUpdate.date_like (src/main.py lines 79-86): None and "" become None,
a well-shaped date string passes through, anything else raises. -/
def date_like : Option String → Except String (Option String)
  | none => .ok none
  | some s =>
    if s = "" then .ok none
    else if isDateShape s then .ok (some s)
    else .error "Dates must be YYYY-MM-DD"

/-- The validated PpmUpdate model (src/main.py lines 70-86): the four
date-like fields have been through date_like; retired_reason and is_active
pass through untouched. -/
structure PpmUpdate where
  finished_date : Option String
  next_due_date : Option String
  is_active : Option Bool
  retired_reason : Option String
  retired_at : Option String
  suspended_until : Option String
  deriving DecidableEq, Repr

/-- Pydantic validation of the request body: every date-like field must
pass date_like, otherwise the request fails before the handler runs. -/
def validatePpmUpdate (r : RawPpmUpdate) : Except String PpmUpdate :=
  match date_like r.finished_date with
  | .error m => .error m
  | .ok fd =>
    match date_like r.next_due_date with
    | .error m => .error m
    | .ok nd =>
      match date_like r.retired_at with
      | .error m => .error m
      | .ok ra =>
        match date_like r.suspended_until with
        | .error m => .error m
        | .ok su =>
          .ok { finished_date := fd, next_due_date := nd,
                is_active := r.is_active, retired_reason := r.retired_reason,
                retired_at := ra, suspended_until := su }

/-- One SET assignment of the UPDATE statement built by api_update_ppm. -/
inductive FieldAssign where
  | setFinished (v : Option String)
  | setNextDue (v : Option String)
  | setRetiredReason (v : Option String)
  | setSuspendedUntil (v : Option String)
  | setActive (v : Bool)
  | setRetiredAt (v : Option String)
  | setRetiredAtNow
  deriving DecidableEq, Repr

/-- `v or None`: the handler turns an empty string into NULL when binding
a value (src/main.py line 271). -/
def emptyToNull (s : String) : Option String :=
  if s = "" then none else some s

/-- The list of SET assignments accumulated by api_update_ppm
(src/main.py lines 264-283), in source order: the four simple fields,
then the is_active block with its retired_at / retired_reason handling. -/
def ppmFields (b : PpmUpdate) : List FieldAssign :=
  (match b.finished_date with
   | some v => [FieldAssign.setFinished (emptyToNull v)]
   | none => []) ++
  (match b.next_due_date with
   | some v => [FieldAssign.setNextDue (emptyToNull v)]
   | none => []) ++
  (match b.retired_reason with
   | some v => [FieldAssign.setRetiredReason (emptyToNull v)]
   | none => []) ++
  (match b.suspended_until with
   | some v => [FieldAssign.setSuspendedUntil (emptyToNull v)]
   | none => []) ++
  (match b.is_active with
   | none => []
   | some a =>
     FieldAssign.setActive a ::
       (if a then
         [FieldAssign.setRetiredAt none, FieldAssign.setRetiredReason none]
        else
         match b.retired_at with
         | some r => [FieldAssign.setRetiredAt (some r)]
         | none => [FieldAssign.setRetiredAtNow]))

/-- Apply one SET assignment to a plan row; retired_at = date('now') uses
the mutation-time date. -/
def applyAssign (today : String) (p : PpmPlan) : FieldAssign → PpmPlan
  | .setFinished v => { p with finished_date := v }
  | .setNextDue v => { p with next_due_date := v }
  | .setRetiredReason v => { p with retired_reason := v }
  | .setSuspendedUntil v => { p with suspended_until := v }
  | .setActive v => { p with is_active := v }
  | .setRetiredAt v => { p with retired_at := v }
  | .setRetiredAtNow => { p with retired_at := some today }

/-- Apply the SET list left to right (SQLite keeps the rightmost
assignment to a column, which the fold reproduces). -/
def applyAssigns (today : String) (fs : List FieldAssign) (p : PpmPlan) : PpmPlan :=
  fs.foldl (applyAssign today) p

/-- The error signals of the two mutation endpoints. -/
inductive ApiError where
  | validation (msg : String)
  | noUpdatableFields
  | notFound
  deriving DecidableEq, Repr

/-- PATCH /api/ppm/\x7bppm_plan_id\x7d (src/main.py lines 262-293):
validate the body, collect the SET assignments, reject an empty list with
the 400 "No updatable fields provided", otherwise update the matching row.
The store is returned alongside the response so that error paths provably
leave it unchanged. -/
def api_update_ppm (today : String) (ppm_plan_id : Int) (raw : RawPpmUpdate)
    (db : DB) : Except ApiError Unit × DB :=
  match validatePpmUpdate raw with
  | .error m => (.error (.validation m), db)
  | .ok b =>
    let fs := ppmFields b
    if fs.isEmpty then (.error .noUpdatableFields, db)
    else
      (.ok (),
       { db with
           plans :=
             db.plans.map fun p =>
               if p.ppm_plan_id = ppm_plan_id then applyAssigns today fs p else p })

/-- The five-member site status enum accepted by SiteUpdate
(src/main.py lines 88-89). -/
inductive SiteStatus where
  | Active
  | Closed
  | Suspended
  | UnderConstruction
  | Unknown
  deriving DecidableEq, Repr

/-- The literal string of each enum member. -/
def SiteStatus.toStr : SiteStatus → String
  | .Active => "Active"
  | .Closed => "Closed"
  | .Suspended => "Suspended"
  | .UnderConstruction => "Under-Construction"
  | .Unknown => "Unknown"

/-- PATCH /api/site/\x7bsite_id\x7d (src/main.py lines 295-304): set status
and updated_at = CURRENT_TIMESTAMP on the matching row; a rowcount of zero
(no site with that id) yields 404 and the store is left unchanged. -/
def api_update_site (now : Int) (site_id : String) (body : SiteStatus)
    (db : DB) : Except ApiError Unit × DB :=
  if db.sites.any (fun s => s.site_id == site_id) then
    (.ok (),
     { db with
         sites :=
           db.sites.map fun s =>
             if s.site_id = site_id then
               { s with status := body.toStr, updated_at := some now }
             else s })
  else (.error .notFound, db)

/-! ## Helper lemmas -/

/-- The EXISTS guard of build_where is always taken: the due_window entry of
the filters dict is one of the four non-empty strings, hence truthy in
`filters.get("category_id") or filters.get("priority") or filters.get("due_window")`. -/
theorem existsGuard_true (f : Filters) : existsGuard f = true := by
  have h : truthyStr f.due_window.toStr = true := by
    cases f.due_window <;> decide
  unfold existsGuard
  rw [h]
  simp

/-! ## C5 and C6: the due-status classifier -/

/-- C5: for every pair (min_next_due, has_overdue), if has_overdue is true the
classifier returns DUE regardless of min_next_due, including when it is absent. -/
theorem c5_overdue_always_due (min_next_due : Option Int) (today : Int) :
    classify_site_status min_next_due true today = "DUE" := rfl

/-- C6: with has_overdue false, the classifier boundaries relative to the
invocation-time date are: today ↦ DUE_SOON, today - 1 ↦ DUE,
today + 30 ↦ DUE_SOON, today + 31 ↦ OK, absent ↦ OK. -/
theorem c6_classifier_boundaries (today : Int) :
    classify_site_status (some today) false today = "DUE_SOON" ∧
    classify_site_status (some (today - 1)) false today = "DUE" ∧
    classify_site_status (some (today + 30)) false today = "DUE_SOON" ∧
    classify_site_status (some (today + 31)) false today = "OK" ∧
    classify_site_status none false today = "OK" := by
  refine ⟨?_, ?_, ?_, ?_, rfl⟩
  · have h1 : ¬ (today < today) := by omega
    have h2 : today ≤ today + 30 := by omega
    simp [classify_site_status, h1, h2]
  · have h1 : today - 1 < today := by omega
    simp [classify_site_status, h1]
  · have h1 : ¬ (today + 30 < today) := by omega
    have h2 : today + 30 ≤ today + 30 := by omega
    simp [classify_site_status, h1, h2]
  · have h1 : ¬ (today + 31 < today) := by omega
    have h2 : ¬ (today + 31 ≤ today + 30) := by omega
    simp [classify_site_status, h1, h2]

/-! ## C1: due_window = "all" and the always-taken EXISTS -/

/-- C1 (bug in the code): the claim says that with due_window = "all" and
neither category_id nor priority set, no plan-existence condition is added to
the site predicate.  In the code `filters.get("due_window")` is the always
non-empty string "all", so build_where still emits
EXISTS (SELECT 1 FROM view_active_ppm ...), and a site with zero rows in the
Active-PPM View is excluded even when every remaining filter matches. -/
theorem c1_all_window_still_requires_active_plan
    (f : Filters) (today soonEnd quarterEnd : String) (db : DB) (s : Site)
    (hdw : f.due_window = DueWindow.all)
    (hcat : f.category_id = none)
    (hpri : f.priority = "")
    (hnone : ∀ p ∈ view_active_ppm today db, p.site_id ≠ s.site_id) :
    sitePred f today soonEnd quarterEnd db s = false := by
  have hg : existsGuard f = true := existsGuard_true f
  have hany : ((view_active_ppm today db).any
      (fun p => p.site_id == s.site_id && planCond f today soonEnd quarterEnd p)) = false := by
    rw [List.any_eq_false]
    intro p hp
    simp only [Bool.and_eq_true, beq_iff_eq, not_and]
    intro hcontra
    exact absurd hcontra (hnone p hp)
  unfold sitePred
  rw [hg]
  simp [hany]

def c1Site : Site :=
  { site_id := "S1", name := "Alpha", uprn := "U100", site_code := "A1",
    status := "Active", site_type_code := "SCH", updated_at := none }

def c1Filters : Filters :=
  { q := "", status := "", site_type := "", category_id := none,
    priority := "", due_window := .all }

/-- C1 witness: a concrete site with no PPM plans at all is rejected by the
site predicate under the default (no-op) filters. -/
theorem c1_all_window_still_requires_active_plan_witness :
    sitePred c1Filters "2025-06-01" "2025-07-01" "2025-08-30"
      { sites := [c1Site], plans := [] } c1Site = false :=
  c1_all_window_still_requires_active_plan c1Filters "2025-06-01" "2025-07-01"
    "2025-08-30" { sites := [c1Site], plans := [] } c1Site rfl rfl rfl
    (by intro p hp; simp [view_active_ppm] at hp)

/-- C1, the divergence made explicit: the same site passes every remaining
(site-level) filter, so the spec says it should be returned. -/
theorem c1_site_matches_remaining_filters :
    baseFilterPred c1Filters c1Site = true := by decide

/-! ## Validation lemmas -/

theorem date_like_bad (s : String) (h1 : s ≠ "") (h2 : isDateShape s = false) :
    date_like (some s) = .error "Dates must be YYYY-MM-DD" := by
  simp [date_like, h1, h2]

theorem date_like_shape (s : String) (hs : isDateShape s = true) :
    date_like (some s) = .ok (some s) := by
  have hne : s ≠ "" := by
    intro h
    subst h
    simp [isDateShape] at hs
  simp [date_like, hne, hs]

/-- date_like either returns a value or raises the fixed message. -/
theorem date_like_cases (o : Option String) :
    (∃ v, date_like o = .ok v) ∨ date_like o = .error "Dates must be YYYY-MM-DD" := by
  rcases o with _ | s
  · exact .inl ⟨none, rfl⟩
  · unfold date_like
    by_cases h1 : s = ""
    · exact .inl ⟨none, by simp [h1]⟩
    · by_cases h2 : isDateShape s = true
      · exact .inl ⟨some s, by simp [h1, h2]⟩
      · right
        simp [h1, h2]

/-- Successful pydantic validation determines every field of the model. -/
theorem validate_ok_fields (r : RawPpmUpdate) (b : PpmUpdate)
    (h : validatePpmUpdate r = .ok b) :
    date_like r.finished_date = .ok b.finished_date ∧
    date_like r.next_due_date = .ok b.next_due_date ∧
    date_like r.retired_at = .ok b.retired_at ∧
    date_like r.suspended_until = .ok b.suspended_until ∧
    b.is_active = r.is_active ∧
    b.retired_reason = r.retired_reason := by
  unfold validatePpmUpdate at h
  rcases hfd : date_like r.finished_date with m | fd
  · rw [hfd] at h
    simp at h
  rcases hnd : date_like r.next_due_date with m | nd
  · rw [hfd, hnd] at h
    simp at h
  rcases hra : date_like r.retired_at with m | ra
  · rw [hfd, hnd, hra] at h
    simp at h
  rcases hsu : date_like r.suspended_until with m | su
  · rw [hfd, hnd, hra, hsu] at h
    simp at h
  rw [hfd, hnd, hra, hsu] at h
  simp only [Except.ok.injEq] at h
  subst h
  exact ⟨rfl, rfl, rfl, rfl, rfl, rfl⟩

/-- Pydantic validation either succeeds or fails with the fixed message. -/
theorem validate_cases (r : RawPpmUpdate) :
    (∃ b, validatePpmUpdate r = .ok b) ∨
    validatePpmUpdate r = .error "Dates must be YYYY-MM-DD" := by
  unfold validatePpmUpdate
  rcases date_like_cases r.finished_date with ⟨fd, hfd⟩ | hfd
  · rw [hfd]
    rcases date_like_cases r.next_due_date with ⟨nd, hnd⟩ | hnd
    · rw [hnd]
      rcases date_like_cases r.retired_at with ⟨ra, hra⟩ | hra
      · rw [hra]
        rcases date_like_cases r.suspended_until with ⟨su, hsu⟩ | hsu
        · rw [hsu]
          exact .inl ⟨_, rfl⟩
        · rw [hsu]
          exact .inr rfl
      · rw [hra]
        exact .inr rfl
    · rw [hnd]
      exact .inr rfl
  · rw [hfd]
    exact .inr rfl

/-- A malformed (non-empty, wrongly shaped) date-like field makes the whole
validation fail with the fixed message. -/
theorem validate_error_of_bad (r : RawPpmUpdate) (s : String)
    (h1 : s ≠ "") (h2 : isDateShape s = false)
    (hc : r.finished_date = some s ∨ r.next_due_date = some s ∨
          r.retired_at = some s ∨ r.suspended_until = some s) :
    validatePpmUpdate r = .error "Dates must be YYYY-MM-DD" := by
  rcases validate_cases r with ⟨b, hb⟩ | hb
  · exfalso
    obtain ⟨e1, e2, e3, e4, _, _⟩ := validate_ok_fields r b hb
    have hbad := date_like_bad s h1 h2
    rcases hc with hc | hc | hc | hc
    · rw [hc, hbad] at e1
      exact absurd e1 (by simp)
    · rw [hc, hbad] at e2
      exact absurd e2 (by simp)
    · rw [hc, hbad] at e3
      exact absurd e3 (by simp)
    · rw [hc, hbad] at e4
      exact absurd e4 (by simp)
  · exact hb

/-! ## C8: malformed dates and empty bodies fail before any mutation -/

/-- C8: a request carrying a date-like field (finished_date, next_due_date,
retired_at, suspended_until) that is non-empty and not in the exact
10-character YYYY-MM-DD shape fails with the pydantic validation error, and a
request with an empty body fails with the 400 "no updatable fields" error; in
both cases the store is returned unchanged — no row is mutated.  (An empty
string is not malformed: date_like normalizes it to absent.) -/
theorem c8_errors_before_mutation
    (today : String) (pid : Int) (raw : RawPpmUpdate) (db : DB) :
    ((∃ s, s ≠ "" ∧ isDateShape s = false ∧
        (raw.finished_date = some s ∨ raw.next_due_date = some s ∨
         raw.retired_at = some s ∨ raw.suspended_until = some s)) →
      api_update_ppm today pid raw db =
        (.error (.validation "Dates must be YYYY-MM-DD"), db)) ∧
    (raw = {} →
      api_update_ppm today pid raw db = (.error .noUpdatableFields, db)) := by
  constructor
  · rintro ⟨s, h1, h2, hc⟩
    have hv := validate_error_of_bad raw s h1 h2 hc
    unfold api_update_ppm
    rw [hv]
  · rintro rfl
    rfl

def c8Plan : PpmPlan :=
  { ppm_plan_id := 1, site_id := "S1", category_id := some 7,
    priority := some "High", finished_date := some "2024-05-05",
    next_due_date := some "2025-06-15", is_active := true, retired_at := none,
    retired_reason := some "old", suspended_until := none }

/-- C8 witness: the spec's own example "15-03-2025" is rejected with no row
mutated, and the empty body is rejected with no row mutated. -/
theorem c8_errors_before_mutation_witness :
    api_update_ppm "2025-06-01" 1 { next_due_date := some "15-03-2025" }
        { sites := [], plans := [c8Plan] } =
      (.error (.validation "Dates must be YYYY-MM-DD"),
        { sites := [], plans := [c8Plan] }) ∧
    api_update_ppm "2025-06-01" 1 {} { sites := [], plans := [c8Plan] } =
      (.error .noUpdatableFields, { sites := [], plans := [c8Plan] }) :=
  ⟨(c8_errors_before_mutation "2025-06-01" 1 { next_due_date := some "15-03-2025" }
      { sites := [], plans := [c8Plan] }).1
      ⟨"15-03-2025", by decide, by decide, Or.inr (Or.inl rfl)⟩,
   (c8_errors_before_mutation "2025-06-01" 1 {} { sites := [], plans := [c8Plan] }).2 rfl⟩

/-! ## C10: retired_at alone is never written -/

/-- C10: a request whose only populated field is a well-formed retired_at
(with is_active absent) is rejected with the "no updatable fields" error and
the store is returned unchanged: retired_at is only applied inside the
is_active = false branch. -/
theorem c10_retired_at_alone_rejected
    (today : String) (pid : Int) (db : DB) (d : String)
    (hd : isDateShape d = true) :
    api_update_ppm today pid { retired_at := some d } db =
      (.error .noUpdatableFields, db) := by
  have hne : d ≠ "" := by
    intro h
    subst h
    simp [isDateShape] at hd
  have hv : validatePpmUpdate { retired_at := some d } = .ok
      { finished_date := none, next_due_date := none, is_active := none,
        retired_reason := none, retired_at := some d, suspended_until := none } := by
    unfold validatePpmUpdate
    simp [date_like, hne, hd, Except.bind, pure, Except.pure]
  unfold api_update_ppm
  rw [hv]
  rfl

def c10Plan : PpmPlan :=
  { ppm_plan_id := 7, site_id := "S2", category_id := none, priority := none,
    finished_date := none, next_due_date := none, is_active := true,
    retired_at := none, retired_reason := none, suspended_until := none }

/-- C10 witness: a valid lone retired_at is rejected and the row untouched. -/
theorem c10_retired_at_alone_rejected_witness :
    api_update_ppm "2025-06-01" 7 { retired_at := some "2025-03-15" }
        { sites := [], plans := [c10Plan] } =
      (.error .noUpdatableFields, { sites := [], plans := [c10Plan] }) :=
  c10_retired_at_alone_rejected "2025-06-01" 7 { sites := [], plans := [c10Plan] }
    "2025-03-15" (by decide)

/-! ## Lemmas about the accumulated SET list -/

/-- Reactivation: with is_active = true in the body, the final SET list ends
in retired_at = NULL, retired_reason = NULL (SQLite keeps the rightmost
assignment), so the row ends active with both retirement fields cleared. -/
theorem applyAssigns_reactivate (today : String) (b : PpmUpdate) (p : PpmPlan)
    (ha : b.is_active = some true) :
    (applyAssigns today (ppmFields b) p).is_active = true ∧
    (applyAssigns today (ppmFields b) p).retired_at = none ∧
    (applyAssigns today (ppmFields b) p).retired_reason = none := by
  obtain ⟨bf, bn, ba, br, bra, bsu⟩ := b
  simp only at ha
  subst ha
  rcases bf with _ | vf <;> rcases bn with _ | vn <;> rcases br with _ | vr <;>
    rcases bsu with _ | vs <;>
      simp [ppmFields, applyAssigns, applyAssign]

/-- Deactivation: with is_active = false in the body, retired_at is the
supplied value when present, else today; a supplied non-empty retired_reason
survives. -/
theorem applyAssigns_deactivate (today : String) (b : PpmUpdate) (p : PpmPlan)
    (ha : b.is_active = some false) :
    (applyAssigns today (ppmFields b) p).is_active = false ∧
    (b.retired_at = none →
      (applyAssigns today (ppmFields b) p).retired_at = some today) ∧
    (∀ r, b.retired_at = some r →
      (applyAssigns today (ppmFields b) p).retired_at = some r) ∧
    (∀ v, b.retired_reason = some v → v ≠ "" →
      (applyAssigns today (ppmFields b) p).retired_reason = some v) := by
  obtain ⟨bf, bn, ba, br, bra, bsu⟩ := b
  simp only at ha
  subst ha
  rcases bf with _ | vf <;> rcases bn with _ | vn <;> rcases br with _ | vr <;>
    rcases bra with _ | vra <;> rcases bsu with _ | vs <;>
      simp [ppmFields, applyAssigns, applyAssign, emptyToNull] <;>
        (intro h; simp [h])

/-- An empty-string retired_reason is bound as `v or None`, i.e. NULL. -/
theorem applyAssigns_empty_reason (today : String) (b : PpmUpdate) (p : PpmPlan)
    (h : b.retired_reason = some "") :
    (applyAssigns today (ppmFields b) p).retired_reason = none := by
  obtain ⟨bf, bn, ba, br, bra, bsu⟩ := b
  simp only at h
  subst h
  rcases bf with _ | vf <;> rcases bn with _ | vn <;> rcases bsu with _ | vs <;>
    rcases bra with _ | vra <;> rcases ba with _ | a <;> (try cases a) <;>
      simp [ppmFields, applyAssigns, applyAssign, emptyToNull]

/-- A body with no finished_date leaves the finished_date column untouched. -/
theorem applyAssigns_no_finished (today : String) (b : PpmUpdate) (p : PpmPlan)
    (h : b.finished_date = none) :
    (applyAssigns today (ppmFields b) p).finished_date = p.finished_date := by
  obtain ⟨bf, bn, ba, br, bra, bsu⟩ := b
  simp only at h
  subst h
  rcases bn with _ | vn <;> rcases br with _ | vr <;> rcases bsu with _ | vs <;>
    rcases bra with _ | vra <;> rcases ba with _ | a <;> (try cases a) <;>
      simp [ppmFields, applyAssigns, applyAssign]

/-- A body with no next_due_date leaves the next_due_date column untouched. -/
theorem applyAssigns_no_nextdue (today : String) (b : PpmUpdate) (p : PpmPlan)
    (h : b.next_due_date = none) :
    (applyAssigns today (ppmFields b) p).next_due_date = p.next_due_date := by
  obtain ⟨bf, bn, ba, br, bra, bsu⟩ := b
  simp only at h
  subst h
  rcases bf with _ | vf <;> rcases br with _ | vr <;> rcases bsu with _ | vs <;>
    rcases bra with _ | vra <;> rcases ba with _ | a <;> (try cases a) <;>
      simp [ppmFields, applyAssigns, applyAssign]

/-- A body with no suspended_until leaves the suspended_until column
untouched. -/
theorem applyAssigns_no_suspended (today : String) (b : PpmUpdate) (p : PpmPlan)
    (h : b.suspended_until = none) :
    (applyAssigns today (ppmFields b) p).suspended_until = p.suspended_until := by
  obtain ⟨bf, bn, ba, br, bra, bsu⟩ := b
  simp only at h
  subst h
  rcases bf with _ | vf <;> rcases bn with _ | vn <;> rcases br with _ | vr <;>
    rcases bra with _ | vra <;> rcases ba with _ | a <;> (try cases a) <;>
      simp [ppmFields, applyAssigns, applyAssign]

/-- A body with is_active present yields a non-empty SET list, so the update
succeeds and rewrites exactly the rows with the target plan id. -/
theorem ppmFields_ne_of_active (b : PpmUpdate) (a : Bool)
    (ha : b.is_active = some a) : (ppmFields b).isEmpty = false := by
  obtain ⟨bf, bn, ba, br, bra, bsu⟩ := b
  simp only at ha
  subst ha
  rcases bf with _ | vf <;> rcases bn with _ | vn <;> rcases br with _ | vr <;>
    rcases bsu with _ | vs <;> rcases bra with _ | vra <;> cases a <;>
      simp [ppmFields]

/-- Shape of a successful api_update_ppm call. -/
theorem api_update_ppm_ok (today : String) (pid : Int) (raw : RawPpmUpdate)
    (b : PpmUpdate) (db : DB) (hv : validatePpmUpdate raw = .ok b)
    (hne : (ppmFields b).isEmpty = false) :
    api_update_ppm today pid raw db =
      (.ok (), { db with plans := db.plans.map fun p =>
        if p.ppm_plan_id = pid then applyAssigns today (ppmFields b) p else p }) := by
  unfold api_update_ppm
  rw [hv]
  simp [hne]

/-! ## C2: what an explicit empty value actually does -/

def c2Plan : PpmPlan :=
  { ppm_plan_id := 1, site_id := "S1", category_id := some 2,
    priority := some "High", finished_date := some "2024-05-05",
    next_due_date := some "2025-01-01", is_active := true, retired_at := none,
    retired_reason := some "old", suspended_until := none }

/-- C2 counterexample: an update carrying finished_date = "" together with
retired_reason = "x" succeeds, yet the stored finished_date is NOT cleared to
NULL — it keeps its old value, because date_like normalizes "" to None and the
handler then treats the field as absent.  This contradicts the claim that an
explicit empty value in finished_date clears the column. -/
theorem c2_counterexample :
    (api_update_ppm "2025-06-01" 1
        { finished_date := some "", retired_reason := some "x" }
        { sites := [], plans := [c2Plan] }).1 = .ok () ∧
    ((api_update_ppm "2025-06-01" 1
        { finished_date := some "", retired_reason := some "x" }
        { sites := [], plans := [c2Plan] }).2.plans.map PpmPlan.finished_date) =
      [some "2024-05-05"] :=
  ⟨rfl, rfl⟩

/-- C2 (amended): an explicit empty string clears only retired_reason to NULL
(it is bound as `v or None`); for finished_date, next_due_date and
suspended_until the validator normalizes "" to absent, so the stored column is
left unchanged rather than cleared. -/
theorem c2_empty_string_semantics
    (today : String) (raw : RawPpmUpdate) (b : PpmUpdate) (p : PpmPlan)
    (hv : validatePpmUpdate raw = .ok b) :
    (raw.retired_reason = some "" →
      (applyAssigns today (ppmFields b) p).retired_reason = none) ∧
    (raw.finished_date = some "" →
      (applyAssigns today (ppmFields b) p).finished_date = p.finished_date) ∧
    (raw.next_due_date = some "" →
      (applyAssigns today (ppmFields b) p).next_due_date = p.next_due_date) ∧
    (raw.suspended_until = some "" →
      (applyAssigns today (ppmFields b) p).suspended_until = p.suspended_until) := by
  obtain ⟨e1, e2, e3, e4, e5, e6⟩ := validate_ok_fields raw b hv
  refine ⟨?_, ?_, ?_, ?_⟩
  · intro h
    rw [h] at e6
    exact applyAssigns_empty_reason today b p e6
  · intro h
    rw [h] at e1
    simp [date_like] at e1
    exact applyAssigns_no_finished today b p e1.symm
  · intro h
    rw [h] at e2
    simp [date_like] at e2
    exact applyAssigns_no_nextdue today b p e2.symm
  · intro h
    rw [h] at e4
    simp [date_like] at e4
    exact applyAssigns_no_suspended today b p e4.symm

def c2WRaw : RawPpmUpdate :=
  { finished_date := some "", next_due_date := some "",
    retired_reason := some "", suspended_until := some "" }

def c2WBody : PpmUpdate :=
  { finished_date := none, next_due_date := none, is_active := none,
    retired_reason := some "", retired_at := none, suspended_until := none }

def c2WPlan : PpmPlan :=
  { ppm_plan_id := 4, site_id := "S9", category_id := none, priority := none,
    finished_date := some "2024-03-03", next_due_date := some "2024-04-04",
    is_active := true, retired_at := none, retired_reason := some "txt",
    suspended_until := some "2024-09-09" }

/-- C2 witness: all four fields sent as "" — retired_reason is cleared while
the three date columns keep their stored values. -/
theorem c2_empty_string_semantics_witness :
    (c2WRaw.retired_reason = some "" →
      (applyAssigns "2025-06-01" (ppmFields c2WBody) c2WPlan).retired_reason = none) ∧
    (c2WRaw.finished_date = some "" →
      (applyAssigns "2025-06-01" (ppmFields c2WBody) c2WPlan).finished_date =
        c2WPlan.finished_date) ∧
    (c2WRaw.next_due_date = some "" →
      (applyAssigns "2025-06-01" (ppmFields c2WBody) c2WPlan).next_due_date =
        c2WPlan.next_due_date) ∧
    (c2WRaw.suspended_until = some "" →
      (applyAssigns "2025-06-01" (ppmFields c2WBody) c2WPlan).suspended_until =
        c2WPlan.suspended_until) :=
  c2_empty_string_semantics "2025-06-01" c2WRaw c2WBody c2WPlan rfl

/-! ## C3: reactivation wipes retirement metadata -/

/-- C3: every update with is_active = true leaves the target row active with
retired_at = NULL and retired_reason = NULL, even when the same request also
supplies a retired_reason (or retired_at) value: the reactivation branch
appends retired_at = NULL, retired_reason = NULL after any earlier
retired_reason assignment, and SQLite keeps the rightmost assignment to a
column. -/
theorem c3_reactivation_wipes_retirement
    (today : String) (pid : Int) (raw : RawPpmUpdate) (b : PpmUpdate) (db : DB)
    (hv : validatePpmUpdate raw = .ok b) (ha : b.is_active = some true) :
    (api_update_ppm today pid raw db).1 = .ok () ∧
    ∀ q ∈ (api_update_ppm today pid raw db).2.plans, q.ppm_plan_id = pid →
      q.is_active = true ∧ q.retired_at = none ∧ q.retired_reason = none := by
  have hne := ppmFields_ne_of_active b true ha
  rw [api_update_ppm_ok today pid raw b db hv hne]
  refine ⟨rfl, ?_⟩
  intro q hq hqid
  simp only [List.mem_map] at hq
  obtain ⟨p0, hp0, rfl⟩ := hq
  by_cases hid : p0.ppm_plan_id = pid
  · rw [if_pos hid]
    exact applyAssigns_reactivate today b p0 ha
  · rw [if_neg hid] at hqid
    exact absurd hqid hid

def c3Raw : RawPpmUpdate :=
  { is_active := some true, retired_reason := some "keep",
    retired_at := some "2024-01-01" }

def c3Body : PpmUpdate :=
  { finished_date := none, next_due_date := none, is_active := some true,
    retired_reason := some "keep", retired_at := some "2024-01-01",
    suspended_until := none }

def c3Plan : PpmPlan :=
  { ppm_plan_id := 1, site_id := "S1", category_id := none, priority := none,
    finished_date := none, next_due_date := none, is_active := false,
    retired_at := some "2023-01-01", retired_reason := some "why",
    suspended_until := none }

/-- C3 witness: reactivating a retired plan while also supplying
retired_reason = "keep" and retired_at = "2024-01-01" still clears both. -/
theorem c3_reactivation_wipes_retirement_witness :
    (api_update_ppm "2025-06-01" 1 c3Raw { sites := [], plans := [c3Plan] }).1 =
      .ok () ∧
    ∀ q ∈ (api_update_ppm "2025-06-01" 1 c3Raw
        { sites := [], plans := [c3Plan] }).2.plans, q.ppm_plan_id = 1 →
      q.is_active = true ∧ q.retired_at = none ∧ q.retired_reason = none :=
  c3_reactivation_wipes_retirement "2025-06-01" 1 c3Raw c3Body
    { sites := [], plans := [c3Plan] } rfl rfl

/-! ## C7: deactivation defaults -/

/-- C7: every update with is_active = false deactivates the row; an
explicitly supplied (well-formed) retired_at is written verbatim, an absent
retired_at defaults to the mutation-time date, and a non-empty retired_reason
supplied in the same request is written as given, untouched by the
deactivation branch. -/
theorem c7_deactivation_retired_at
    (today : String) (pid : Int) (raw : RawPpmUpdate) (b : PpmUpdate) (db : DB)
    (hv : validatePpmUpdate raw = .ok b) (ha : b.is_active = some false) :
    (api_update_ppm today pid raw db).1 = .ok () ∧
    ∀ q ∈ (api_update_ppm today pid raw db).2.plans, q.ppm_plan_id = pid →
      q.is_active = false ∧
      (raw.retired_at = none → q.retired_at = some today) ∧
      (∀ r, raw.retired_at = some r → isDateShape r = true →
        q.retired_at = some r) ∧
      (∀ v, raw.retired_reason = some v → v ≠ "" →
        q.retired_reason = some v) := by
  obtain ⟨e1, e2, e3, e4, e5, e6⟩ := validate_ok_fields raw b hv
  have hne := ppmFields_ne_of_active b false ha
  rw [api_update_ppm_ok today pid raw b db hv hne]
  refine ⟨rfl, ?_⟩
  intro q hq hqid
  simp only [List.mem_map] at hq
  obtain ⟨p0, hp0, rfl⟩ := hq
  by_cases hid : p0.ppm_plan_id = pid
  · rw [if_pos hid]
    obtain ⟨d1, d2, d3, d4⟩ := applyAssigns_deactivate today b p0 ha
    refine ⟨d1, ?_, ?_, ?_⟩
    · intro h
      rw [h] at e3
      simp [date_like] at e3
      exact d2 e3.symm
    · intro r hr hshape
      rw [hr, date_like_shape r hshape] at e3
      simp at e3
      exact d3 r e3.symm
    · intro v hvv hv2
      rw [hvv] at e6
      exact d4 v e6 hv2
  · rw [if_neg hid] at hqid
    exact absurd hqid hid

def c7Raw : RawPpmUpdate :=
  { is_active := some false, retired_reason := some "why" }

def c7Body : PpmUpdate :=
  { finished_date := none, next_due_date := none, is_active := some false,
    retired_reason := some "why", retired_at := none, suspended_until := none }

def c7Plan : PpmPlan :=
  { ppm_plan_id := 3, site_id := "S3", category_id := some 5,
    priority := some "Low", finished_date := none,
    next_due_date := some "2025-09-09", is_active := true, retired_at := none,
    retired_reason := none, suspended_until := none }

/-- C7 witness: deactivating without an explicit retired_at sets it to the
mutation-time date, and the supplied retired_reason is kept as written. -/
theorem c7_deactivation_retired_at_witness :
    (api_update_ppm "2025-06-01" 3 c7Raw { sites := [], plans := [c7Plan] }).1 =
      .ok () ∧
    ∀ q ∈ (api_update_ppm "2025-06-01" 3 c7Raw
        { sites := [], plans := [c7Plan] }).2.plans, q.ppm_plan_id = 3 →
      q.is_active = false ∧
      (c7Raw.retired_at = none → q.retired_at = some "2025-06-01") ∧
      (∀ r, c7Raw.retired_at = some r → isDateShape r = true →
        q.retired_at = some r) ∧
      (∀ v, c7Raw.retired_reason = some v → v ≠ "" →
        q.retired_reason = some v) :=
  c7_deactivation_retired_at "2025-06-01" 3 c7Raw c7Body
    { sites := [], plans := [c7Plan] } rfl rfl

/-! ## C9: the site status update -/

/-- C9: the site status update accepts only the five enum statuses (the
SiteStatus type has exactly those five members); on success it sets status
and bumps updated_at to the mutation time on exactly the matching rows,
touching no plan; for an identifier matching no row it fails with not-found
and the store is returned unchanged. -/
theorem c9_site_status_update
    (now : Int) (sid : String) (st : SiteStatus) (db : DB) :
    ((∀ s ∈ db.sites, s.site_id ≠ sid) →
      api_update_site now sid st db = (.error .notFound, db)) ∧
    ((∃ s ∈ db.sites, s.site_id = sid) →
      (api_update_site now sid st db).1 = .ok () ∧
      (api_update_site now sid st db).2.plans = db.plans ∧
      (api_update_site now sid st db).2.sites =
        (db.sites.map fun s =>
          if s.site_id = sid then
            { s with status := st.toStr, updated_at := some now }
          else s)) ∧
    (∀ x : SiteStatus, x = .Active ∨ x = .Closed ∨ x = .Suspended ∨
      x = .UnderConstruction ∨ x = .Unknown) := by
  refine ⟨?_, ?_, ?_⟩
  · intro h
    have hfalse : (db.sites.any fun s => s.site_id == sid) = false := by
      rw [List.any_eq_false]
      intro s hs
      simp [h s hs]
    unfold api_update_site
    rw [hfalse]
    rfl
  · intro h
    have htrue : (db.sites.any fun s => s.site_id == sid) = true := by
      rw [List.any_eq_true]
      obtain ⟨s, hs, hid⟩ := h
      exact ⟨s, hs, by simp [hid]⟩
    unfold api_update_site
    rw [htrue]
    exact ⟨rfl, rfl, rfl⟩
  · intro x
    cases x
    · exact Or.inl rfl
    · exact Or.inr (Or.inl rfl)
    · exact Or.inr (Or.inr (Or.inl rfl))
    · exact Or.inr (Or.inr (Or.inr (Or.inl rfl)))
    · exact Or.inr (Or.inr (Or.inr (Or.inr rfl)))

def c9Site : Site :=
  { site_id := "S1", name := "Alpha", uprn := "U100", site_code := "A1",
    status := "Active", site_type_code := "SCH", updated_at := none }

def c9Db : DB := { sites := [c9Site], plans := [] }

/-- C9 witness: updating the existing site "S1" succeeds and writes the new
status with updated_at bumped; updating the unknown "S2" yields not-found and
an unchanged store. -/
theorem c9_site_status_update_witness :
    api_update_site 42 "S2" SiteStatus.Closed c9Db = (.error .notFound, c9Db) ∧
    (api_update_site 42 "S1" SiteStatus.Closed c9Db).1 = .ok () ∧
    (api_update_site 42 "S1" SiteStatus.Closed c9Db).2.sites =
      (c9Db.sites.map fun s =>
        if s.site_id = "S1" then
          { s with status := SiteStatus.Closed.toStr, updated_at := some 42 }
        else s) :=
  ⟨(c9_site_status_update 42 "S2" SiteStatus.Closed c9Db).1 (by decide),
   ((c9_site_status_update 42 "S1" SiteStatus.Closed c9Db).2.1
      ⟨c9Site, by decide, rfl⟩).1,
   ((c9_site_status_update 42 "S1" SiteStatus.Closed c9Db).2.1
      ⟨c9Site, by decide, rfl⟩).2.2⟩

/-! ## C4: the conjunctive single EXISTS over the active view -/

theorem inActiveView_iff (today : String) (p : PpmPlan) :
    inActiveView today p = true ↔
      p.is_active = true ∧
      (p.suspended_until = none ∨
        ∃ u, p.suspended_until = some u ∧ strLe u today = true) := by
  unfold inActiveView
  rcases hsu : p.suspended_until with _ | u <;> simp [hsu]

theorem iteTrue_iff (c x : Bool) (P : Prop) (h : x = true ↔ P) :
    (if c = true then x else true) = true ↔ (c = true → P) := by
  cases c <;> simp [h]

theorem dwCond_iff (dw : DueWindow) (today soonEnd quarterEnd : String)
    (p : PpmPlan) :
    dwCond dw today soonEnd quarterEnd p = true ↔
      ((dw = DueWindow.overdue →
        ∃ d, p.next_due_date = some d ∧ strLt d today = true) ∧
       (dw = DueWindow.soon →
        ∃ d, p.next_due_date = some d ∧ strLe today d = true ∧
          strLe d soonEnd = true) ∧
       (dw = DueWindow.quarter →
        ∃ d, p.next_due_date = some d ∧ strLe today d = true ∧
          strLe d quarterEnd = true)) := by
  cases dw <;> rcases hnd : p.next_due_date with _ | d <;> simp [dwCond, hnd]

theorem planCond_iff (f : Filters) (today soonEnd quarterEnd : String)
    (p : PpmPlan) :
    planCond f today soonEnd quarterEnd p = true ↔
      ((truthyOptInt f.category_id = true → p.category_id = f.category_id) ∧
       (truthyStr f.priority = true → p.priority = some f.priority) ∧
       ((f.due_window = DueWindow.overdue →
         ∃ d, p.next_due_date = some d ∧ strLt d today = true) ∧
        (f.due_window = DueWindow.soon →
         ∃ d, p.next_due_date = some d ∧ strLe today d = true ∧
           strLe d soonEnd = true) ∧
        (f.due_window = DueWindow.quarter →
         ∃ d, p.next_due_date = some d ∧ strLe today d = true ∧
           strLe d quarterEnd = true))) := by
  unfold planCond
  rw [Bool.and_eq_true, Bool.and_eq_true, and_assoc]
  exact and_congr (iteTrue_iff _ _ _ (by simp))
    (and_congr (iteTrue_iff _ _ _ (by simp))
      (dwCond_iff f.due_window today soonEnd quarterEnd p))

def c4CSite : Site :=
  { site_id := "S1", name := "Beta", uprn := "U200", site_code := "B1",
    status := "Active", site_type_code := "LIB", updated_at := none }

def c4CPlan : PpmPlan :=
  { ppm_plan_id := 2, site_id := "S1", category_id := some 7,
    priority := some "High", finished_date := none,
    next_due_date := some "2025-06-15", is_active := true, retired_at := none,
    retired_reason := none, suspended_until := none }

def c4CDb : DB := { sites := [c4CSite], plans := [c4CPlan] }

def c4CFilters : Filters :=
  { q := "", status := "", site_type := "", category_id := some 0,
    priority := "", due_window := .all }

/-- C4 counterexample: with category_id = 0 set in the request, the claim
requires the site to be kept only if some active-view row has category 0; the
code keeps the site although its only active plan has category 7, because
Python treats the integer 0 as falsy and silently drops the category
condition while the EXISTS (always emitted) passes on any active plan. -/
theorem c4_counterexample :
    c4CSite ∈ sitesFiltered c4CFilters "2025-06-01" "2025-07-01" "2025-08-30"
      c4CDb ∧
    ∀ p ∈ view_active_ppm "2025-06-01" c4CDb,
      ¬(p.site_id = c4CSite.site_id ∧
        p.category_id = c4CFilters.category_id) := by
  decide

/-- C4 (amended): when category_id, priority, or due_window (other than
"all") is set — set meaning truthy: a non-zero category_id, a non-empty
priority, a non-"all" due_window, matching the request normalization in which
absent, empty-string and zero values are no-ops — the listing keeps exactly
the sites having at least one single row of the Active-PPM View (active and
not currently suspended) satisfying every set condition simultaneously: the
conditions are conjoined inside one existence check per site, and inactive or
currently-suspended plans never satisfy it. -/
theorem c4_conjunctive_single_exists
    (f : Filters) (today soonEnd quarterEnd : String) (db : DB) (s : Site)
    (hset : truthyOptInt f.category_id = true ∨ truthyStr f.priority = true ∨
      f.due_window ≠ DueWindow.all) :
    (s ∈ sitesFiltered f today soonEnd quarterEnd db ↔
      s ∈ db.sites ∧ baseFilterPred f s = true ∧
      ∃ p ∈ db.plans,
        (p.is_active = true ∧
          (p.suspended_until = none ∨
            ∃ u, p.suspended_until = some u ∧ strLe u today = true)) ∧
        p.site_id = s.site_id ∧
        (truthyOptInt f.category_id = true → p.category_id = f.category_id) ∧
        (truthyStr f.priority = true → p.priority = some f.priority) ∧
        (f.due_window = DueWindow.overdue →
          ∃ d, p.next_due_date = some d ∧ strLt d today = true) ∧
        (f.due_window = DueWindow.soon →
          ∃ d, p.next_due_date = some d ∧ strLe today d = true ∧
            strLe d soonEnd = true) ∧
        (f.due_window = DueWindow.quarter →
          ∃ d, p.next_due_date = some d ∧ strLe today d = true ∧
            strLe d quarterEnd = true)) := by
  have hg := existsGuard_true f
  unfold sitesFiltered
  rw [List.mem_filter]
  apply and_congr Iff.rfl
  unfold sitePred
  rw [hg, if_pos rfl, Bool.and_eq_true]
  apply and_congr Iff.rfl
  rw [List.any_eq_true]
  constructor
  · rintro ⟨p, hp, hcond⟩
    unfold view_active_ppm at hp
    rw [List.mem_filter] at hp
    rw [Bool.and_eq_true, beq_iff_eq] at hcond
    obtain ⟨hsid, hpc⟩ := hcond
    obtain ⟨hcat, hpri, hdw1, hdw2, hdw3⟩ :=
      (planCond_iff f today soonEnd quarterEnd p).1 hpc
    exact ⟨p, hp.1, (inActiveView_iff today p).1 hp.2, hsid, hcat, hpri,
      hdw1, hdw2, hdw3⟩
  · rintro ⟨p, hp, hact, hsid, hcat, hpri, hdw1, hdw2, hdw3⟩
    refine ⟨p, ?_, ?_⟩
    · unfold view_active_ppm
      rw [List.mem_filter]
      exact ⟨hp, (inActiveView_iff today p).2 hact⟩
    · rw [Bool.and_eq_true, beq_iff_eq]
      exact ⟨hsid, (planCond_iff f today soonEnd quarterEnd p).2
        ⟨hcat, hpri, hdw1, hdw2, hdw3⟩⟩

def c4WSite : Site :=
  { site_id := "S5", name := "Gamma", uprn := "U300", site_code := "G1",
    status := "Active", site_type_code := "SCH", updated_at := none }

def c4WPlan : PpmPlan :=
  { ppm_plan_id := 9, site_id := "S5", category_id := some 3,
    priority := some "High", finished_date := none,
    next_due_date := some "2025-06-15", is_active := true, retired_at := none,
    retired_reason := none, suspended_until := none }

def c4WDb : DB := { sites := [c4WSite], plans := [c4WPlan] }

def c4WFilters : Filters :=
  { q := "", status := "", site_type := "", category_id := none,
    priority := "High", due_window := .all }

/-- C4 witness: with priority = "High" set, membership in the filtered
listing is equivalent to the single-row conjunctive existence over the
active view. -/
theorem c4_conjunctive_single_exists_witness :
    (c4WSite ∈ sitesFiltered c4WFilters "2025-06-01" "2025-07-01" "2025-08-30"
        c4WDb ↔
      c4WSite ∈ c4WDb.sites ∧ baseFilterPred c4WFilters c4WSite = true ∧
      ∃ p ∈ c4WDb.plans,
        (p.is_active = true ∧
          (p.suspended_until = none ∨
            ∃ u, p.suspended_until = some u ∧ strLe u "2025-06-01" = true)) ∧
        p.site_id = c4WSite.site_id ∧
        (truthyOptInt c4WFilters.category_id = true →
          p.category_id = c4WFilters.category_id) ∧
        (truthyStr c4WFilters.priority = true →
          p.priority = some c4WFilters.priority) ∧
        (c4WFilters.due_window = DueWindow.overdue →
          ∃ d, p.next_due_date = some d ∧ strLt d "2025-06-01" = true) ∧
        (c4WFilters.due_window = DueWindow.soon →
          ∃ d, p.next_due_date = some d ∧ strLe "2025-06-01" d = true ∧
            strLe d "2025-07-01" = true) ∧
        (c4WFilters.due_window = DueWindow.quarter →
          ∃ d, p.next_due_date = some d ∧ strLe "2025-06-01" d = true ∧
            strLe d "2025-08-30" = true)) :=
  c4_conjunctive_single_exists c4WFilters "2025-06-01" "2025-07-01"
    "2025-08-30" c4WDb c4WSite (Or.inr (Or.inl (by decide)))

end Compliance
